import Mathlib

/-!
Verification of the cat-tagline-generator pipeline
(`cat_tagline_generator.py`), shallowly embedded in Lean 4.

Modelling conventions:
* Byte strings are `List Nat` (each entry one byte value).
* The external world (HTTP fetch outcome, PIL decode success, file-write
  success, OpenAI chat responses) is an explicit `Env` record; the embedded
  functions are pure functions of it, mirroring the Python control flow.
* Python `None`-or-value results are `Option`; raised exceptions that a
  caller observes are `Except`.
* Python truthiness on `bytes`/`str` values (`if not x:`) is mirrored by
  the explicit none-or-empty checks in `run_full_pipeline`.
-/

namespace CatTagline

/-- Outcome of `requests.get(f"{base_url}/cat", timeout=10)` as observed by
the code: either a response with a status code and a byte body (redirects
already followed by `requests`), or a raised `requests.RequestException`
(timeout, DNS failure, connection error, too many redirects, ...). -/
inductive FetchOutcome where
  | response (status_code : Nat) (content : List Nat)
  | requestException
deriving DecidableEq, Repr

/-- One HTTP request as issued by the embedded code (method, URL, timeout
in seconds). -/
structure HttpRequest where
  method : String
  url : String
  timeout : Option Nat
deriving DecidableEq, Repr

/-- A part of a multimodal chat message: a text part or an image-URL part,
mirroring the `{"type": "text", ...}` / `{"type": "image_url", ...}`
dictionaries built in `describe_image`. -/
inductive ContentPart where
  | text (s : String)
  | image_url (url : String)
deriving DecidableEq, Repr

/-- The content of a chat message: plain text (as in
`generate_funny_tagline`) or a list of parts (as in `describe_image`). -/
inductive MessageContent where
  | text (s : String)
  | parts (ps : List ContentPart)
deriving DecidableEq, Repr

/-- One chat message with its role, as passed to
`client.chat.completions.create`. -/
structure ChatMessage where
  role : String
  content : MessageContent
deriving DecidableEq, Repr

/-- A request to `client.chat.completions.create`: model name, messages,
`max_tokens`, and optional `temperature` (absent means the client default,
as in `describe_image`). -/
structure ChatRequest where
  model : String
  messages : List ChatMessage
  max_tokens : Nat
  temperature : Option ℚ

/-- The dictionary returned by `run_full_pipeline`: every key is optional
because the Python code returns dictionaries with different key sets on the
success and failure paths. A key that is absent from the returned dict is
`none`. -/
structure PipelineResult where
  image_path : Option String := none
  description : Option String := none
  tagline : Option String := none
  success : Option Bool := none
  error : Option String := none
deriving DecidableEq, Repr

/-- One invocation of a pipeline step, recorded in the order the steps run,
with the argument each collaborator call received. -/
inductive Call where
  | fetch
  | save (image_data : List Nat) (filename : String)
  | describe (image_data : List Nat)
  | caption (image_description : String)
deriving DecidableEq, Repr

/-- The external world a single pipeline run interacts with:
`fetchOutcome` models the HTTP layer of `fetch_random_cat_image`;
`decodeOk` models whether `PIL.Image.open`/`save` accepts the bytes as a
valid image; `saveOk` models whether the filesystem write succeeds;
`chatApi` models `client.chat.completions.create`, returning the message
content string (`Except.ok`) or a raised exception (`Except.error`). -/
structure Env where
  fetchOutcome : FetchOutcome
  decodeOk : List Nat → Bool
  saveOk : Bool
  chatApi : ChatRequest → Except String String

/-- The `cataas_base_url` attribute set in `__init__`. -/
def cataas_base_url : String := "https://cataas.com"

/-- The object constructed by `CatTaglineGenerator.__init__`: the resolved
API key and the cat-API base URL. -/
structure Generator where
  api_key : String
  base_url : String
deriving DecidableEq, Repr

/-- Python truthiness of an optional string (`if api_key:` /
`if not self.api_key:`): `none` and the empty string are falsy. -/
def pyTruthyOptStr (o : Option String) : Bool :=
  match o with
  | none => false
  | some s => !s.isEmpty

/-- `CatTaglineGenerator.__init__(api_key)`: use the argument if truthy,
otherwise `os.getenv('OPENAI_API_KEY')` (`envKey`); raise `ValueError`
(`Except.error`) if the resolved key is still falsy. The constructor makes
no network call: `OpenAI(api_key=...)` only stores the credential. -/
def catInit (api_key : Option String) (envKey : Option String) :
    Except String Generator :=
  let resolved : Option String :=
    if pyTruthyOptStr api_key then api_key else envKey
  if pyTruthyOptStr resolved then
    Except.ok { api_key := resolved.getD "", base_url := cataas_base_url }
  else
    Except.error
      "OPENAI_API_KEY is required. Provide it as a parameter or set the environment variable."

/-- The HTTP requests issued by one call to `fetch_random_cat_image`: the
source performs exactly one `requests.get(f"{base_url}/cat", timeout=10)`
with no retry loop. -/
def fetchHttpRequests (base_url : String) : List HttpRequest :=
  [{ method := "GET", url := base_url ++ "/cat", timeout := some 10 }]

/-- `response.raise_for_status()` raises `requests.HTTPError` exactly for
4xx and 5xx status codes (the source comment at the call site says the
same: "4xx or 5xx status codes"). -/
def raiseForStatusRaises (status_code : Nat) : Bool :=
  decide (400 ≤ status_code ∧ status_code < 600)

/-- `fetch_random_cat_image`: on a response whose status does not trigger
`raise_for_status`, return the raw body; any `requests.RequestException`
(including the `HTTPError` from `raise_for_status`) is caught and `None`
is returned. -/
def fetch_random_cat_image (o : FetchOutcome) : Option (List Nat) :=
  match o with
  | FetchOutcome.response status_code content =>
      if raiseForStatusRaises status_code then none else some content
  | FetchOutcome.requestException => none

/-- `save_image_locally(image_data, filename)`: `PIL.Image.open` validates
the bytes (raises on non-image data), `image.save(filename)` writes the
file; any exception is logged and re-raised (`Except.error`), otherwise
the filename is returned. -/
def save_image_locally (env : Env) (image_data : List Nat)
    (filename : String) : Except String String :=
  if env.decodeOk image_data then
    if env.saveOk then Except.ok filename
    else Except.error "image write failed"
  else Except.error "cannot identify image file"

/-- Base64 value of one 6-bit group, per RFC 4648 (the alphabet used by
Python's `base64.b64encode`). -/
def b64Char (n : Nat) : Char :=
  if n < 26 then Char.ofNat (65 + n)
  else if n < 52 then Char.ofNat (97 + (n - 26))
  else if n < 62 then Char.ofNat (48 + (n - 52))
  else if n = 62 then '+'
  else '/'

/-- Standard base64 encoding of a byte list with `=` padding, as performed
by `base64.b64encode(image_data).decode('utf-8')`. -/
def base64EncodeList : List Nat → List Char
  | [] => []
  | [b1] =>
      let n := (b1 % 256) * 65536
      [b64Char (n / 262144), b64Char ((n / 4096) % 64), '=', '=']
  | [b1, b2] =>
      let n := (b1 % 256) * 65536 + (b2 % 256) * 256
      [b64Char (n / 262144), b64Char ((n / 4096) % 64),
       b64Char ((n / 64) % 64), '=']
  | b1 :: b2 :: b3 :: rest =>
      let n := (b1 % 256) * 65536 + (b2 % 256) * 256 + (b3 % 256)
      b64Char (n / 262144) :: b64Char ((n / 4096) % 64) ::
        b64Char ((n / 64) % 64) :: b64Char (n % 64) :: base64EncodeList rest

/-- String form of the base64 encoding. -/
def base64Encode (bytes : List Nat) : String :=
  String.mk (base64EncodeList bytes)

/-- The instruction text sent with the image in `describe_image`. -/
def describePrompt : String :=
  "Please describe this cat image in detail. Focus on the cat\x27s appearance, pose, expression, surroundings, and any notable or amusing features. Be descriptive but concise."

/-- The data URL built in `describe_image`:
`f"data:image/jpeg;base64,{base64_image}"` — the MIME label is the literal
`image/jpeg` whatever the actual bytes are. -/
def describeImageUrl (image_data : List Nat) : String :=
  "data:image/jpeg;base64," ++ base64Encode image_data

/-- The chat request built by `describe_image`: model `gpt-4o-mini`, one
user message with a text part and an image-URL part, `max_tokens=300`, no
explicit temperature. -/
def describeRequest (image_data : List Nat) : ChatRequest :=
  { model := "gpt-4o-mini",
    messages :=
      [{ role := "user",
         content := MessageContent.parts
           [ContentPart.text describePrompt,
            ContentPart.image_url (describeImageUrl image_data)] }],
    max_tokens := 300,
    temperature := none }

/-- `describe_image(image_data)`: send `describeRequest`, return the
response content; any exception is caught and `None` is returned. -/
def describe_image (env : Env) (image_data : List Nat) : Option String :=
  match env.chatApi (describeRequest image_data) with
  | Except.ok description => some description
  | Except.error _ => none

/-- The system message content of `generate_funny_tagline`. -/
def taglineSystemContent : String :=
  "You are a witty copywriter who creates hilarious, clever taglines for cat photos. Your taglines should be punny, relatable, and capture the essence of internet cat humor. Keep them under 20 words and make them memorable."

/-- The user message content of `generate_funny_tagline`: the f-string
embeds the description verbatim between two fixed text blocks. -/
def taglineUserContent (image_description : String) : String :=
  "Based on this cat image description, create a funny tagline:\n\n"
    ++ image_description ++ "\n\nMake it punny and internet-cat-meme worthy!"

/-- The chat request built by `generate_funny_tagline`: model
`gpt-4o-mini`, a system message and a user message, `max_tokens=100`,
`temperature=0.9`. -/
def taglineRequest (image_description : String) : ChatRequest :=
  { model := "gpt-4o-mini",
    messages :=
      [{ role := "system", content := MessageContent.text taglineSystemContent },
       { role := "user",
         content := MessageContent.text (taglineUserContent image_description) }],
    max_tokens := 100,
    temperature := some ((9 : ℚ) / 10) }

/-- Python whitespace characters stripped by `str.strip()` (ASCII range:
space, tab, newline, carriage return, vertical tab, form feed). -/
def isPyWhitespace (c : Char) : Bool :=
  c = ' ' || c = '\t' || c = '\n' || c = '\r' || c = '\x0b' || c = '\x0c'

/-- `str.strip()` on a character list: drop whitespace from both ends. -/
def pyStripList (l : List Char) : List Char :=
  ((l.dropWhile isPyWhitespace).reverse.dropWhile isPyWhitespace).reverse

/-- `str.strip()`: remove surrounding whitespace. -/
def pyStrip (s : String) : String :=
  String.mk (pyStripList s.data)

/-- `generate_funny_tagline(image_description)`: send `taglineRequest`,
return `response.choices[0].message.content.strip()`; any exception is
caught and `None` is returned. -/
def generate_funny_tagline (env : Env) (image_description : String) :
    Option String :=
  match env.chatApi (taglineRequest image_description) with
  | Except.ok raw => some (pyStrip raw)
  | Except.error _ => none

/-- `run_full_pipeline`: fetch, then save, then describe, then caption,
returning the result dictionary and the trace of step invocations.
`if not image_data:` treats `None` and empty bytes alike, and
`if not description:` / `if not tagline:` treat `None` and the empty
string alike, exactly as the Python truthiness checks do. -/
def run_full_pipeline (env : Env) : PipelineResult × List Call :=
  match fetch_random_cat_image env.fetchOutcome with
  | none => ({ error := some "Failed to fetch cat image" }, [Call.fetch])
  | some image_data =>
    if image_data.isEmpty then
      ({ error := some "Failed to fetch cat image" }, [Call.fetch])
    else
      match save_image_locally env image_data "current_cat.jpg" with
      | Except.error _ =>
          ({ error := some "Failed to save cat image" },
           [Call.fetch, Call.save image_data "current_cat.jpg"])
      | Except.ok image_path =>
          match describe_image env image_data with
          | none =>
              ({ error := some "Failed to describe cat image" },
               [Call.fetch, Call.save image_data "current_cat.jpg",
                Call.describe image_data])
          | some description =>
            if description.isEmpty then
              ({ error := some "Failed to describe cat image" },
               [Call.fetch, Call.save image_data "current_cat.jpg",
                Call.describe image_data])
            else
              match generate_funny_tagline env description with
              | none =>
                  ({ error := some "Failed to generate tagline" },
                   [Call.fetch, Call.save image_data "current_cat.jpg",
                    Call.describe image_data, Call.caption description])
              | some tagline =>
                if tagline.isEmpty then
                  ({ error := some "Failed to generate tagline" },
                   [Call.fetch, Call.save image_data "current_cat.jpg",
                    Call.describe image_data, Call.caption description])
                else
                  ({ image_path := some image_path,
                     description := some description,
                     tagline := some tagline,
                     success := some true },
                   [Call.fetch, Call.save image_data "current_cat.jpg",
                    Call.describe image_data, Call.caption description])

/-! ## Theorems -/

/-- C6: construction resolves the credential in the order explicit argument
first, then the `OPENAI_API_KEY` environment variable, and raises a
configuration error at construction time (the pure `catInit` returns
`Except.error` before any collaborator call exists) when no credential is
resolvable. -/
theorem credential_resolution_order (arg envKey : Option String) :
    (pyTruthyOptStr arg = true →
      catInit arg envKey =
        Except.ok { api_key := arg.getD "", base_url := cataas_base_url }) ∧
    (pyTruthyOptStr arg = false → pyTruthyOptStr envKey = true →
      catInit arg envKey =
        Except.ok { api_key := envKey.getD "", base_url := cataas_base_url }) ∧
    (pyTruthyOptStr arg = false → pyTruthyOptStr envKey = false →
      catInit arg envKey =
        Except.error
          "OPENAI_API_KEY is required. Provide it as a parameter or set the environment variable.") := by
  refine ⟨fun h => ?_, fun h1 h2 => ?_, fun h1 h2 => ?_⟩
  · simp [catInit, h]
  · simp [catInit, h1, h2]
  · simp [catInit, h1, h2]

/-- C6 witness: an explicit key wins over an absent environment key. -/
theorem credential_resolution_order_witness :
    catInit (some "sk-test") none =
      Except.ok { api_key := "sk-test", base_url := cataas_base_url } :=
  (credential_resolution_order (some "sk-test") none).1 (by decide)

/-- C9: an empty explicit credential is falsy, so construction falls back
to the environment variable, succeeding with the environment value when
that is non-empty and raising only when it too is missing or empty. -/
theorem empty_api_key_falls_back_to_env (envKey : Option String) :
    (pyTruthyOptStr envKey = true →
      catInit (some "") envKey =
        Except.ok { api_key := envKey.getD "", base_url := cataas_base_url }) ∧
    (pyTruthyOptStr envKey = false →
      catInit (some "") envKey =
        Except.error
          "OPENAI_API_KEY is required. Provide it as a parameter or set the environment variable.") := by
  have h0 : pyTruthyOptStr (some "") = false := by decide
  refine ⟨fun h => ?_, fun h => ?_⟩ <;> simp [catInit, h0, h]

/-- C9 witness: empty explicit key plus non-empty environment key
constructs the generator with the environment value. -/
theorem empty_api_key_falls_back_to_env_witness :
    catInit (some "") (some "env-key") =
      Except.ok { api_key := "env-key", base_url := cataas_base_url } :=
  (empty_api_key_falls_back_to_env (some "env-key")).1 (by decide)

/-- C10: the describe request embeds the bytes as a data URL whose MIME
prefix is always the literal `data:image/jpeg;base64,` followed by the
base64 encoding of the bytes, regardless of the actual image format; the
base64 encoding matches the RFC 4648 test vectors and the PNG signature
is still labelled `image/jpeg`. -/
theorem describe_data_url_always_jpeg_mime (image_data : List Nat) :
    (describeRequest image_data).messages =
      [{ role := "user",
         content := MessageContent.parts
           [ContentPart.text describePrompt,
            ContentPart.image_url
              ("data:image/jpeg;base64," ++ base64Encode image_data)] }] ∧
    describeImageUrl image_data =
      "data:image/jpeg;base64," ++ base64Encode image_data ∧
    base64Encode [77, 97, 110] = "TWFu" ∧
    base64Encode [77, 97] = "TWE=" ∧
    base64Encode [77] = "TQ==" ∧
    describeImageUrl [137, 80, 78, 71, 13, 10, 26, 10] =
      "data:image/jpeg;base64," ++ "iVBORw0KGgo=" := by
  refine ⟨rfl, rfl, ?_, ?_, ?_, ?_⟩ <;> decide

/-- C7 amended: the fetch operation issues exactly one GET request to
`{base_url}/cat` with a 10-second timeout and no retries; a network
exception or a 4xx/5xx status yields no result, while any status outside
400–599 (including 3xx such as 304) returns the raw body. -/
theorem fetch_request_shape_and_status_handling
    (base_url : String) (code : Nat) (content : List Nat) :
    fetchHttpRequests base_url =
      [{ method := "GET", url := base_url ++ "/cat", timeout := some 10 }] ∧
    (fetchHttpRequests base_url).length = 1 ∧
    fetch_random_cat_image FetchOutcome.requestException = none ∧
    (400 ≤ code ∧ code < 600 →
      fetch_random_cat_image (FetchOutcome.response code content) = none) ∧
    (¬(400 ≤ code ∧ code < 600) →
      fetch_random_cat_image (FetchOutcome.response code content) = some content) := by
  refine ⟨rfl, rfl, rfl, fun h => ?_, fun h => ?_⟩ <;>
    simp [fetch_random_cat_image, raiseForStatusRaises, h]

/-- C7 witness: a 404 status is treated as a failure. -/
theorem fetch_request_shape_witness :
    fetch_random_cat_image (FetchOutcome.response 404 [9]) = none :=
  (fetch_request_shape_and_status_handling cataas_base_url 404 [9]).2.2.2.1
    (by decide)

/-- C7 counterexample: the claim says any non-2xx status is a failure, but
`raise_for_status` only raises for 4xx/5xx, so a 304 response returns its
body even though 304 is not a 2xx status. -/
theorem fetch_returns_body_on_status_304 :
    fetch_random_cat_image (FetchOutcome.response 304 [7]) = some [7] ∧
    ¬(200 ≤ 304 ∧ 304 < 300) := by decide

/-- Environment for the fetch-failure scenarios: the HTTP layer raises a
`requests.RequestException` (e.g. a timeout). -/
def c3Env : Env :=
  { fetchOutcome := FetchOutcome.requestException,
    decodeOk := fun _ => true,
    saveOk := true,
    chatApi := fun _ => Except.ok "cat" }

/-- C3 amended: on a fetch failure (network exception or 4xx/5xx status),
`fetch_random_cat_image` catches the error and returns no result, and
`run_full_pipeline` returns the error `"Failed to fetch cat image"` with a
trace containing only the fetch step — persist, describe and caption are
never attempted. -/
theorem fetch_failure_short_circuits (env : Env)
    (h : env.fetchOutcome = FetchOutcome.requestException ∨
      ∃ code content, env.fetchOutcome = FetchOutcome.response code content ∧
        400 ≤ code ∧ code < 600) :
    fetch_random_cat_image env.fetchOutcome = none ∧
    (run_full_pipeline env).1 = { error := some "Failed to fetch cat image" } ∧
    (run_full_pipeline env).2 = [Call.fetch] := by
  have hf : fetch_random_cat_image env.fetchOutcome = none := by
    rcases h with h | ⟨code, content, h, h4, h6⟩ <;>
      simp [fetch_random_cat_image, raiseForStatusRaises, h]
    omega
  exact ⟨hf, by simp [run_full_pipeline, hf], by simp [run_full_pipeline, hf]⟩

/-- C3 witness: a raised network exception short-circuits the pipeline. -/
theorem fetch_failure_short_circuits_witness :
    (run_full_pipeline c3Env).1 = { error := some "Failed to fetch cat image" } ∧
    (run_full_pipeline c3Env).2 = [Call.fetch] :=
  ⟨(fetch_failure_short_circuits c3Env (Or.inl rfl)).2.1,
   (fetch_failure_short_circuits c3Env (Or.inl rfl)).2.2⟩

/-- C3 counterexample: the error message returned on a fetch failure is
`"Failed to fetch cat image"`, not the claimed `"failed to fetch image"`. -/
theorem fetch_failure_error_message_differs :
    (run_full_pipeline c3Env).1.error = some "Failed to fetch cat image" ∧
    (run_full_pipeline c3Env).1.error ≠ some "failed to fetch image" := by
  decide

/-- `str.strip()` removes only surrounding characters: the original
character list is the stripped list surrounded by whitespace-only prefix
and suffix. -/
theorem pyStripList_surrounds (l : List Char) :
    ∃ p q, l = p ++ pyStripList l ++ q ∧
      (∀ c ∈ p, isPyWhitespace c = true) ∧
      (∀ c ∈ q, isPyWhitespace c = true) := by
  refine ⟨l.takeWhile isPyWhitespace,
    ((l.dropWhile isPyWhitespace).reverse.takeWhile isPyWhitespace).reverse,
    ?_, ?_, ?_⟩
  · have h2 : (l.dropWhile isPyWhitespace).reverse.takeWhile isPyWhitespace ++
        (l.dropWhile isPyWhitespace).reverse.dropWhile isPyWhitespace =
        (l.dropWhile isPyWhitespace).reverse := by
      rw [List.takeWhile_append_dropWhile]
    have h3 := congrArg List.reverse h2
    rw [List.reverse_append, List.reverse_reverse] at h3
    calc l = l.takeWhile isPyWhitespace ++ l.dropWhile isPyWhitespace := by
          rw [List.takeWhile_append_dropWhile]
      _ = l.takeWhile isPyWhitespace ++
            (((l.dropWhile isPyWhitespace).reverse.dropWhile isPyWhitespace).reverse ++
             ((l.dropWhile isPyWhitespace).reverse.takeWhile isPyWhitespace).reverse) := by
          rw [h3]
      _ = l.takeWhile isPyWhitespace ++ pyStripList l ++
            ((l.dropWhile isPyWhitespace).reverse.takeWhile isPyWhitespace).reverse := by
          rw [List.append_assoc]; rfl
  · exact fun c hc => List.mem_takeWhile_imp hc
  · exact fun c hc => List.mem_takeWhile_imp (List.mem_reverse.mp hc)

/-- C8: a successful caption call returns the model output with
surrounding whitespace stripped, and the request is a single chat call
with a system persona message and a user task message, `max_tokens = 100`
and `temperature = 0.9`. -/
theorem tagline_request_shape_and_trimming (env : Env) (d raw : String)
    (h : env.chatApi (taglineRequest d) = Except.ok raw) :
    generate_funny_tagline env d = some (pyStrip raw) ∧
    (taglineRequest d).messages.map ChatMessage.role = ["system", "user"] ∧
    (taglineRequest d).max_tokens = 100 ∧
    (taglineRequest d).temperature = some ((9 : ℚ) / 10) ∧
    ∃ p q, raw.data = p ++ (pyStrip raw).data ++ q ∧
      (∀ c ∈ p, isPyWhitespace c = true) ∧
      (∀ c ∈ q, isPyWhitespace c = true) := by
  refine ⟨?_, rfl, rfl, rfl, ?_⟩
  · simp [generate_funny_tagline, h]
  · exact pyStripList_surrounds raw.data

/-- Environment for the caption-trimming witness: the chat API answers
every request with a caption surrounded by spaces. -/
def c8Env : Env :=
  { fetchOutcome := FetchOutcome.response 200 [255, 216, 255, 224],
    decodeOk := fun _ => true,
    saveOk := true,
    chatApi := fun _ => Except.ok "  Paws and reflect.  " }

/-- C8 witness: the surrounding spaces of a concrete model output are
removed. -/
theorem tagline_request_shape_witness :
    generate_funny_tagline c8Env "a cat" = some (pyStrip "  Paws and reflect.  ") ∧
    pyStrip "  Paws and reflect.  " = "Paws and reflect." :=
  ⟨(tagline_request_shape_and_trimming c8Env "a cat" "  Paws and reflect.  " rfl).1,
   by decide⟩

/-- C2 amended: bytes that PIL cannot decode make `save_image_locally`
raise (`Except.error`, never a sentinel), and the pipeline then returns
the dictionary `{error: "Failed to save cat image"}` (no `success` key)
after only the fetch and save steps ran. -/
theorem invalid_image_raises_and_pipeline_reports (env : Env)
    (bytes : List Nat) (filename : String)
    (hdec : env.decodeOk bytes = false)
    (hf : fetch_random_cat_image env.fetchOutcome = some bytes)
    (hne : bytes ≠ []) :
    (∃ msg, save_image_locally env bytes filename = Except.error msg) ∧
    (run_full_pipeline env).1 = { error := some "Failed to save cat image" } ∧
    (run_full_pipeline env).2 = [Call.fetch, Call.save bytes "current_cat.jpg"] := by
  refine ⟨⟨"cannot identify image file", by simp [save_image_locally, hdec]⟩, ?_, ?_⟩ <;>
    simp [run_full_pipeline, hf, hne, save_image_locally, hdec]

/-- Environment for the invalid-image scenario of the spec: the fetch
returns 500 bytes of non-image garbage and PIL rejects them. -/
def c2Env : Env :=
  { fetchOutcome := FetchOutcome.response 200 (List.replicate 500 0),
    decodeOk := fun _ => false,
    saveOk := true,
    chatApi := fun _ => Except.ok "cat" }

/-- C2 witness: 500 bytes of non-image garbage end the run with the save
error, with only fetch and save in the trace. -/
theorem invalid_image_raises_witness :
    (run_full_pipeline c2Env).1 = { error := some "Failed to save cat image" } ∧
    (run_full_pipeline c2Env).2 =
      [Call.fetch, Call.save (List.replicate 500 0) "current_cat.jpg"] :=
  ⟨(invalid_image_raises_and_pipeline_reports c2Env (List.replicate 500 0)
      "current_cat.jpg" rfl rfl (fun h => by
        have hl := congrArg List.length h
        rw [List.length_replicate, List.length_nil] at hl
        exact absurd hl (by decide))).2.1,
   (invalid_image_raises_and_pipeline_reports c2Env (List.replicate 500 0)
      "current_cat.jpg" rfl rfl (fun h => by
        have hl := congrArg List.length h
        rw [List.length_replicate, List.length_nil] at hl
        exact absurd hl (by decide))).2.2⟩

/-- C2 counterexample: the claim says the failed result is
`{success: false, error: "Failed to save cat image"}`, but the returned
dictionary has no `success` key at all (`none`, not `some false`). -/
theorem save_failure_result_has_no_success_field :
    (run_full_pipeline c2Env).1.error = some "Failed to save cat image" ∧
    (run_full_pipeline c2Env).1.success = none ∧
    (run_full_pipeline c2Env).1.success ≠ some false := by decide

/-- Environment for the describe-failure scenario of the spec: fetch
returns valid JPEG bytes, PIL accepts them, and the vision call (the one
with `max_tokens = 300`) returns the empty string. -/
def c4Env : Env :=
  { fetchOutcome := FetchOutcome.response 200 [255, 216, 255, 224],
    decodeOk := fun _ => true,
    saveOk := true,
    chatApi := fun req =>
      if req.max_tokens = 300 then Except.ok "" else Except.ok "tag" }

/-- C4 amended: when fetch and persist succeed but the describe step
yields no result or an empty string, the pipeline returns the dictionary
`{error: "Failed to describe cat image"}` (no `success` key) and the
caption collaborator is never invoked. -/
theorem describe_failure_skips_caption (env : Env) (bytes : List Nat)
    (hf : fetch_random_cat_image env.fetchOutcome = some bytes)
    (hne : bytes ≠ [])
    (hdec : env.decodeOk bytes = true)
    (hw : env.saveOk = true)
    (hd : describe_image env bytes = none ∨ describe_image env bytes = some "") :
    (run_full_pipeline env).1 = { error := some "Failed to describe cat image" } ∧
    ∀ d, Call.caption d ∉ (run_full_pipeline env).2 := by
  have he : ("" : String).isEmpty = true := rfl
  have hres : run_full_pipeline env =
      ({ error := some "Failed to describe cat image" },
       [Call.fetch, Call.save bytes "current_cat.jpg", Call.describe bytes]) := by
    rcases hd with hd | hd <;>
      simp [run_full_pipeline, hf, hne, save_image_locally, hdec, hw, hd, he]
  refine ⟨by rw [hres], fun d => ?_⟩
  rw [hres]
  simp

/-- C4 witness: valid JPEG bytes, successful save, empty description:
the run ends with the describe error and no caption call. -/
theorem describe_failure_skips_caption_witness :
    (run_full_pipeline c4Env).1 = { error := some "Failed to describe cat image" } ∧
    ∀ d, Call.caption d ∉ (run_full_pipeline c4Env).2 :=
  describe_failure_skips_caption c4Env [255, 216, 255, 224] rfl (by decide)
    rfl rfl (Or.inr rfl)

/-- C4 counterexample: the claim says the failed result carries
`success: false`, but the dictionary returned on a describe failure has
no `success` key (`none`, not `some false`). -/
theorem describe_failure_result_has_no_success_field :
    (run_full_pipeline c4Env).1.error = some "Failed to describe cat image" ∧
    (run_full_pipeline c4Env).1.success = none ∧
    (run_full_pipeline c4Env).1.success ≠ some false := by decide

/-- Environment for a fully successful run: valid JPEG bytes, PIL and the
filesystem cooperate, the vision call (`max_tokens = 300`) returns the
representative description and the text call returns a caption. -/
def happyEnv : Env :=
  { fetchOutcome := FetchOutcome.response 200 [255, 216, 255, 224],
    decodeOk := fun _ => true,
    saveOk := true,
    chatApi := fun req =>
      if req.max_tokens = 300 then
        Except.ok "A tabby cat mid-yawn on a windowsill"
      else Except.ok "Paws and reflect." }

/-- C5: whenever the describe step produced a non-empty description, the
caption step is invoked with exactly that string, and the caption request
payload embeds that exact string between two fixed text blocks in its
user message. -/
theorem caption_called_with_exact_description (env : Env)
    (bytes : List Nat) (d : String)
    (hf : fetch_random_cat_image env.fetchOutcome = some bytes)
    (hne : bytes ≠ [])
    (hdec : env.decodeOk bytes = true)
    (hw : env.saveOk = true)
    (hd : describe_image env bytes = some d)
    (hdne : d ≠ "") :
    (run_full_pipeline env).2 =
      [Call.fetch, Call.save bytes "current_cat.jpg", Call.describe bytes,
       Call.caption d] ∧
    (taglineRequest d).messages =
      [{ role := "system", content := MessageContent.text taglineSystemContent },
       { role := "user", content := MessageContent.text (taglineUserContent d) }] ∧
    ∃ p q, taglineUserContent d = p ++ d ++ q := by
  have hde : d.isEmpty = false := by
    cases h : d.isEmpty
    · rfl
    · exact absurd ((String.isEmpty_iff d).mp h) hdne
  refine ⟨?_, rfl,
    ⟨"Based on this cat image description, create a funny tagline:\n\n",
     "\n\nMake it punny and internet-cat-meme worthy!", rfl⟩⟩
  cases hc : generate_funny_tagline env d with
  | none =>
      simp [run_full_pipeline, hf, hne, save_image_locally, hdec, hw, hd, hde, hc]
  | some t =>
      by_cases ht : t.isEmpty <;>
        simp [run_full_pipeline, hf, hne, save_image_locally, hdec, hw, hd, hde,
          hc, ht]

/-- C5 witness: the representative description reaches the caption call
unmutated. -/
theorem caption_called_with_exact_description_witness :
    (run_full_pipeline happyEnv).2 =
      [Call.fetch, Call.save [255, 216, 255, 224] "current_cat.jpg",
       Call.describe [255, 216, 255, 224],
       Call.caption "A tabby cat mid-yawn on a windowsill"] :=
  (caption_called_with_exact_description happyEnv [255, 216, 255, 224]
    "A tabby cat mid-yawn on a windowsill" rfl (by decide) rfl rfl rfl
    (by decide)).1

/-- C1 amended: every pipeline result is either fully populated
(`success = some true`, path, description and tagline present, no error
key) or carries exactly one error message with all content keys absent
and no `success` key at all (the failure dictionaries never contain
`success`). -/
theorem run_full_pipeline_all_or_nothing (env : Env) :
    ((run_full_pipeline env).1.success = some true ∧
     (run_full_pipeline env).1.image_path.isSome = true ∧
     (run_full_pipeline env).1.description.isSome = true ∧
     (run_full_pipeline env).1.tagline.isSome = true ∧
     (run_full_pipeline env).1.error = none) ∨
    ((run_full_pipeline env).1.success = none ∧
     (∃ m, (run_full_pipeline env).1.error = some m) ∧
     (run_full_pipeline env).1.image_path = none ∧
     (run_full_pipeline env).1.description = none ∧
     (run_full_pipeline env).1.tagline = none) := by
  unfold run_full_pipeline
  repeat' split
  all_goals simp

/-- C1 counterexample: a failed run (here: fetch raises) yields a result
whose `success` field is absent (`none`), not `some false` as the claim
states. -/
theorem fetch_failure_result_has_no_success_field :
    (run_full_pipeline c3Env).1.error = some "Failed to fetch cat image" ∧
    (run_full_pipeline c3Env).1.success = none ∧
    (run_full_pipeline c3Env).1.success ≠ some false := by decide

end CatTagline
